import Mathlib

/-
Verification of the Uber ride cancellation prediction app
(src/Project Deploy/Uber_Ride_Cancellation_App.py).

The app is a single Dash callback, `predict_cancellation`, guarded by a
module-level model load (`pipeline = joblib.load(...)` when the artifact
exists, else `pipeline = None`).  We embed the callback as a total Lean
function of:
  - the optionally-loaded pipeline (`none` models a failed load; `some score`
    models a loaded model whose `predict_proba` returns per-row, per-class
    probabilities or raises an exception carrying a message),
  - the trigger count `n_clicks` (0 models Dash's falsy `None`/0), and
  - the sixteen UI state values.
Probabilities are rationals; Python's `round(x, 2)` is embedded as
round-half-to-even on hundredths; the f-string rendering of the rounded
float is embedded as shortest-decimal printing of a hundredths multiple.
-/

attribute [local semireducible] Rat.add Rat.sub Rat.mul Rat.inv

/-- A value placed into the pandas record: the UI supplies integers
(sliders and numeric inputs), one general numeric field (precipitation),
and strings (dropdowns). -/
inductive Value where
  | int : ℤ → Value
  | rat : ℚ → Value
  | str : String → Value
deriving DecidableEq, Repr

/-- The sixteen callback state arguments, in the order of the function
signature of `predict_cancellation` (line 165-166 of the source). -/
structure Inputs where
  v_type : String
  weather : String
  pickup : String
  drop : String
  patience : String
  rating : String
  arrival : ℤ
  dist : ℤ
  cost : ℤ
  temp : ℤ
  hour : ℤ
  hum : ℤ
  prec : ℚ
  day : String
  month : ℤ
  dom : ℤ
deriving DecidableEq, Repr

/-- The single-row record handed to the model: an ordered association of
field name to value, as built by the dict literal at lines 174-191. -/
abbrev Record := List (String × Value)

/-- Embedding of the dict literal at lines 174-191: the keys, in source
order, each bound to the corresponding callback argument, unmodified. -/
def input_data (i : Inputs) : Record :=
  [ ("vehicle_arrival_time", Value.int i.arrival),
    ("distance", Value.int i.dist),
    ("ride_cost", Value.int i.cost),
    ("temperature", Value.int i.temp),
    ("humidity", Value.int i.hum),
    ("precipitation_mm", Value.rat i.prec),
    ("vehicle_type", Value.str i.v_type),
    ("customer_patience", Value.str i.patience),
    ("pickup_zone", Value.str i.pickup),
    ("drop_zone", Value.str i.drop),
    ("historical_customer_rating_binned", Value.str i.rating),
    ("hour", Value.int i.hour),
    ("day", Value.str i.day),
    ("month", Value.int i.month),
    ("day_of_month", Value.int i.dom),
    ("weather_condition", Value.str i.weather) ]

/-- The sixteen field names of the training-time schema. -/
def schema_fields : List String :=
  [ "vehicle_arrival_time", "distance", "ride_cost", "temperature",
    "humidity", "precipitation_mm", "vehicle_type", "customer_patience",
    "pickup_zone", "drop_zone", "historical_customer_rating_binned",
    "hour", "day", "month", "day_of_month", "weather_condition" ]

/-- Python's `round` to the nearest integer: half-to-even (banker's
rounding), embedded over the rationals. -/
def pyRoundHalfEven (q : ℚ) : ℤ :=
  if q - (Rat.floor q : ℚ) < 1/2 then Rat.floor q
  else if 1/2 < q - (Rat.floor q : ℚ) then Rat.floor q + 1
  else if Rat.floor q % 2 = 0 then Rat.floor q else Rat.floor q + 1

/-- Python's `round(x, 2)`: round to the nearest hundredth. -/
def pyRound2 (x : ℚ) : ℚ :=
  (pyRoundHalfEven (x * 100) : ℚ) / 100

/-- Decimal rendering of the value n/100 the way Python's float repr
prints a two-decimal quantity: sign, integer part, a dot, then the
fraction with a trailing zero dropped (and at least one digit kept), e.g.
4567 ↦ "45.67", 7300 ↦ "73.0", 4560 ↦ "45.6", 4505 ↦ "45.05". -/
def formatHundredths (n : ℤ) : String :=
  let sign := if n < 0 then "-" else ""
  let m := n.natAbs
  let ip := m / 100
  let fp := m % 100
  let fracStr :=
    if fp = 0 then "0"
    else if fp % 10 = 0 then toString (fp / 10)
    else if fp < 10 then "0" ++ toString fp
    else toString fp
  sign ++ toString ip ++ "." ++ fracStr

/-- Rendering of an already-rounded hundredths multiple (the callback's
`prob_pct`) as the f-string at line 207 displays it. -/
def pyFloatRepr2 (q : ℚ) : String :=
  formatHundredths (pyRoundHalfEven (q * 100))

/-- The fixed decision threshold (line 196). -/
def threshold : ℚ := 1/2

/-- A loaded model: `predict_proba` on a record either raises (message
carried in the error) or returns the per-row, per-class probabilities. -/
abbrev Pipeline := Record → Except String (List (List ℚ))

/-- The `[0][1]` indexing at line 194: first row, second class
probability; an out-of-range index raises Python's IndexError. -/
def getProb : List (List ℚ) → Except String ℚ
  | [] => Except.error "list index out of range"
  | row :: _ =>
    match row with
    | _ :: p :: _ => Except.ok p
    | _ => Except.error "list index out of range"

/-- The body of the `try` block up to obtaining `prob`
(`pipeline.predict_proba(input_data)[0][1]`): any fault from the scoring
call or the indexing propagates to the `except` handler. -/
def tryScore (score : Pipeline) (rec : Record) : Except String ℚ :=
  match score rec with
  | Except.error e => Except.error e
  | Except.ok rows => getProb rows

/-- The five callback outputs, in declaration order: prediction text,
its CSS class, probability bar value, bar color, caption text. -/
structure Outputs where
  text : String
  className : String
  barValue : ℚ
  barColor : String
  caption : String
deriving DecidableEq, Repr

/-- The `try` / `except` block of the callback (lines 193-210): score the
record, round the probability to a percentage, apply the threshold, and
render the five outputs; any fault becomes the "Prediction failed" row. -/
def score_and_render (score : Pipeline) (i : Inputs) : Outputs :=
  match tryScore score (input_data i) with
  | Except.error e =>
      ⟨"Error", "text-danger", 0, "danger", "Prediction failed: " ++ e⟩
  | Except.ok prob =>
      let prob_pct := pyRound2 (prob * 100)
      if threshold ≤ prob then
        ⟨"Cancelled", "text-center text-danger font-weight-bold",
         prob_pct, "danger", pyFloatRepr2 prob_pct ++ "% Risk"⟩
      else
        ⟨"Not Cancelled", "text-center text-success font-weight-bold",
         prob_pct, "success", pyFloatRepr2 prob_pct ++ "% Risk"⟩

/-- Embedding of the callback `predict_cancellation` (lines 165-210).
`n_clicks = 0` models a falsy click count (Dash's initial `None` or 0);
`pipeline = none` models the failed module-level load. -/
def predict_cancellation (pipeline : Option Pipeline) (n_clicks : ℕ)
    (i : Inputs) : Outputs :=
  if n_clicks = 0 then
    ⟨"Ready", "text-center text-muted", 0, "info", "Click Predict to start"⟩
  else
    match pipeline with
    | none => ⟨"Error", "text-danger", 0, "danger", "Model file not found."⟩
    | some score => score_and_render score i

/-- The UI default values of the sixteen controls (the `value=` arguments
in the layout). -/
def defaultInputs : Inputs :=
  ⟨"Auto", "Clear", "Gurgaon", "South Delhi", "patient", "No Prior Rating",
   5, 10, 300, 30, 18, 50, 0, "Monday", 6, 15⟩

/-- Batteries' computable floor agrees with the floor of the order
structure on ℚ. -/
theorem ratFloor_eq_intFloor (q : ℚ) : Rat.floor q = ⌊q⌋ := by
  refine le_antisymm (Int.le_floor.mpr (Rat.le_floor.mp le_rfl))
    (Rat.le_floor.mpr (Int.floor_le q))

/-- Half-to-even rounding moves a rational by at most one half. -/
theorem abs_pyRoundHalfEven_sub_le (q : ℚ) :
    |(pyRoundHalfEven q : ℚ) - q| ≤ 1/2 := by
  have hfl : ((Rat.floor q : ℤ) : ℚ) ≤ q := by
    rw [ratFloor_eq_intFloor]; exact Int.floor_le q
  have hlt : q < ((Rat.floor q : ℤ) : ℚ) + 1 := by
    rw [ratFloor_eq_intFloor]
    exact Int.lt_floor_add_one q
  unfold pyRoundHalfEven
  split_ifs with h1 h2 h3 <;> rw [abs_le] <;> constructor <;> push_cast <;>
    linarith

/-- `round(x, 2)` lands on a hundredth multiple within 1/200 of `x`. -/
theorem pyRound2_close (x : ℚ) : |pyRound2 x - x| ≤ 1/200 := by
  unfold pyRound2
  have h := abs_pyRoundHalfEven_sub_le (x * 100)
  rw [abs_le] at h ⊢
  constructor <;> linarith [h.1, h.2]

/-- C5: Before any trigger (callback invoked with no clicks yet), the
displayed state is outcome text "Ready", probability bar value 0, and bar
color "info" (with the muted CSS class and the "Click Predict to start"
caption), regardless of the pipeline state and the field values. -/
theorem idle_ready_before_trigger (pl : Option Pipeline) (i : Inputs) :
    predict_cancellation pl 0 i =
      ⟨"Ready", "text-center text-muted", 0, "info", "Click Predict to start"⟩ :=
  rfl

/-- C2: If the model artifact failed to load at startup (pipeline is
`none`), every invocation with a nonzero click count returns outcome text
"Error", danger color, probability bar value 0, and the fixed message
"Model file not found."; no scoring function exists to be called. -/
theorem model_missing_fixed_message (n : ℕ) (i : Inputs) (hn : n ≠ 0) :
    predict_cancellation none n i =
      ⟨"Error", "text-danger", 0, "danger", "Model file not found."⟩ := by
  unfold predict_cancellation
  rw [if_neg hn]

/-- Witness for C2 at one click and the UI default field values. -/
theorem model_missing_fixed_message_witness :
    (1 : ℕ) ≠ 0 ∧
    predict_cancellation none 1 defaultInputs =
      ⟨"Error", "text-danger", 0, "danger", "Model file not found."⟩ :=
  ⟨by decide, model_missing_fixed_message 1 defaultInputs (by decide)⟩

/-- C10: With a falsy click count the callback returns the Idle "Ready"
outputs even when the model artifact failed to load: the click check
precedes the availability check, so the "Model file not found." message is
never shown at zero clicks. -/
theorem idle_precedes_availability (i : Inputs) :
    predict_cancellation none 0 i =
      ⟨"Ready", "text-center text-muted", 0, "info", "Click Predict to start"⟩ ∧
    (predict_cancellation none 0 i).caption ≠ "Model file not found." ∧
    (predict_cancellation none 0 i).text ≠ "Error" :=
  ⟨rfl, show "Click Predict to start" ≠ "Model file not found." by decide,
   show "Ready" ≠ "Error" by decide⟩

/-- C6: The record submitted to the model carries exactly the sixteen
schema field names, in order, and every schema field is populated (lookup
succeeds) for every combination of UI values. -/
theorem record_covers_schema (i : Inputs) :
    (input_data i).map Prod.fst = schema_fields ∧
    ∀ k ∈ schema_fields, ((input_data i).lookup k).isSome = true := by
  refine ⟨rfl, ?_⟩
  intro k hk
  fin_cases hk <;> rfl

/-- C9: Each of the sixteen UI values is placed into the prediction
record unchanged — stated for arbitrary field values, so in particular
out-of-range months, days of month, humidity or precipitation are passed
to the model exactly as given, with no rejection, clamping or
transformation. -/
theorem ui_values_passed_unchanged (i : Inputs) :
    (input_data i).lookup "vehicle_arrival_time" = some (Value.int i.arrival) ∧
    (input_data i).lookup "distance" = some (Value.int i.dist) ∧
    (input_data i).lookup "ride_cost" = some (Value.int i.cost) ∧
    (input_data i).lookup "temperature" = some (Value.int i.temp) ∧
    (input_data i).lookup "humidity" = some (Value.int i.hum) ∧
    (input_data i).lookup "precipitation_mm" = some (Value.rat i.prec) ∧
    (input_data i).lookup "vehicle_type" = some (Value.str i.v_type) ∧
    (input_data i).lookup "customer_patience" = some (Value.str i.patience) ∧
    (input_data i).lookup "pickup_zone" = some (Value.str i.pickup) ∧
    (input_data i).lookup "drop_zone" = some (Value.str i.drop) ∧
    (input_data i).lookup "historical_customer_rating_binned"
      = some (Value.str i.rating) ∧
    (input_data i).lookup "hour" = some (Value.int i.hour) ∧
    (input_data i).lookup "day" = some (Value.str i.day) ∧
    (input_data i).lookup "month" = some (Value.int i.month) ∧
    (input_data i).lookup "day_of_month" = some (Value.int i.dom) ∧
    (input_data i).lookup "weather_condition" = some (Value.str i.weather) :=
  ⟨rfl, rfl, rfl, rfl, rfl, rfl, rfl, rfl, rfl, rfl, rfl, rfl, rfl, rfl,
   rfl, rfl⟩


/-- A nonzero click count on a loaded pipeline runs the scoring block. -/
theorem predict_cancellation_some (s : Pipeline) (n : ℕ) (i : Inputs)
    (hn : n ≠ 0) :
    predict_cancellation (some s) n i = score_and_render s i := by
  unfold predict_cancellation
  rw [if_neg hn]

/-- When the scoring block obtains probability `p`, the rendered outputs
are the thresholded rows with the rounded percentage. -/
theorem score_and_render_ok (s : Pipeline) (i : Inputs) (p : ℚ)
    (hs : tryScore s (input_data i) = Except.ok p) :
    score_and_render s i =
      if threshold ≤ p then
        ⟨"Cancelled", "text-center text-danger font-weight-bold",
         pyRound2 (p * 100), "danger",
         pyFloatRepr2 (pyRound2 (p * 100)) ++ "% Risk"⟩
      else
        ⟨"Not Cancelled", "text-center text-success font-weight-bold",
         pyRound2 (p * 100), "success",
         pyFloatRepr2 (pyRound2 (p * 100)) ++ "% Risk"⟩ := by
  unfold score_and_render
  rw [hs]

/-- When the scoring block raises, the rendered outputs are the
"Prediction failed" row carrying the fault text. -/
theorem score_and_render_fault (s : Pipeline) (i : Inputs) (e : String)
    (hs : tryScore s (input_data i) = Except.error e) :
    score_and_render s i =
      ⟨"Error", "text-danger", 0, "danger", "Prediction failed: " ++ e⟩ := by
  unfold score_and_render
  rw [hs]

/-- C1: For every probability p in [0,1] returned by the model (as the
second class probability of the single row), the trigger produces label
"Cancelled" with danger color exactly when p ≥ 1/2 (boundary inclusive),
and otherwise label "Not Cancelled" with success color. -/
theorem threshold_boundary_mapping (p q0 : ℚ) (i : Inputs) (n : ℕ)
    (hn : n ≠ 0) (h0 : 0 ≤ p) (h1 : p ≤ 1) :
    (((predict_cancellation (some fun _ => Except.ok [[q0, p]]) n i).text
        = "Cancelled" ∧
      (predict_cancellation (some fun _ => Except.ok [[q0, p]]) n i).barColor
        = "danger") ↔ 1/2 ≤ p) ∧
    (((predict_cancellation (some fun _ => Except.ok [[q0, p]]) n i).text
        = "Not Cancelled" ∧
      (predict_cancellation (some fun _ => Except.ok [[q0, p]]) n i).barColor
        = "success") ↔ p < 1/2) := by
  rw [predict_cancellation_some (fun _ => Except.ok [[q0, p]]) n i hn,
    score_and_render_ok (fun _ => Except.ok [[q0, p]]) i p rfl]
  by_cases hp : threshold ≤ p
  · rw [if_pos hp]
    exact ⟨⟨fun _ => hp, fun _ => ⟨rfl, rfl⟩⟩,
           ⟨fun hc =>
              absurd hc.1 (show ("Cancelled" : String) ≠ "Not Cancelled"
                by decide),
            fun hlt => absurd hp (not_le.mpr hlt)⟩⟩
  · rw [if_neg hp]
    exact ⟨⟨fun hc =>
              absurd hc.1 (show ("Not Cancelled" : String) ≠ "Cancelled"
                by decide),
            fun hle => absurd hle hp⟩,
           ⟨fun _ => not_le.mp hp, fun _ => ⟨rfl, rfl⟩⟩⟩

/-- Witness for C1 at the boundary probability 1/2, one click, the UI
default field values, and first class probability 1/2. -/
theorem threshold_boundary_mapping_witness :
    (1 : ℕ) ≠ 0 ∧ (0 : ℚ) ≤ 1/2 ∧ (1/2 : ℚ) ≤ 1 ∧
    ((((predict_cancellation (some fun _ => Except.ok [[1/2, 1/2]]) 1
          defaultInputs).text = "Cancelled" ∧
       (predict_cancellation (some fun _ => Except.ok [[1/2, 1/2]]) 1
          defaultInputs).barColor = "danger") ↔ (1/2 : ℚ) ≤ 1/2) ∧
     (((predict_cancellation (some fun _ => Except.ok [[1/2, 1/2]]) 1
          defaultInputs).text = "Not Cancelled" ∧
       (predict_cancellation (some fun _ => Except.ok [[1/2, 1/2]]) 1
          defaultInputs).barColor = "success") ↔ (1/2 : ℚ) < 1/2)) :=
  ⟨by decide, by decide, by decide,
   threshold_boundary_mapping (1/2) (1/2) defaultInputs 1 (by decide)
     (by decide) (by decide)⟩

/-- C3: For every probability p in [0,1], the displayed percentage is
`round(p * 100, 2)`: it equals the bar value, is a multiple of one
hundredth lying within 1/200 of p × 100, and the caption text renders
the very same value followed by "% Risk". -/
theorem percentage_two_decimal_display (p q0 : ℚ) (i : Inputs) (n : ℕ)
    (hn : n ≠ 0) (h0 : 0 ≤ p) (h1 : p ≤ 1) :
    (predict_cancellation (some fun _ => Except.ok [[q0, p]]) n i).barValue
      = pyRound2 (p * 100) ∧
    (∃ k : ℤ,
      (predict_cancellation (some fun _ => Except.ok [[q0, p]]) n i).barValue
        = (k : ℚ) / 100) ∧
    |(predict_cancellation (some fun _ => Except.ok [[q0, p]]) n i).barValue
        - p * 100| ≤ 1/200 ∧
    (predict_cancellation (some fun _ => Except.ok [[q0, p]]) n i).caption
      = pyFloatRepr2
          ((predict_cancellation (some fun _ => Except.ok [[q0, p]]) n
            i).barValue) ++ "% Risk" := by
  rw [predict_cancellation_some (fun _ => Except.ok [[q0, p]]) n i hn,
    score_and_render_ok (fun _ => Except.ok [[q0, p]]) i p rfl]
  by_cases hp : threshold ≤ p
  · rw [if_pos hp]
    exact ⟨rfl, ⟨pyRoundHalfEven (p * 100 * 100), rfl⟩,
           pyRound2_close (p * 100), rfl⟩
  · rw [if_neg hp]
    exact ⟨rfl, ⟨pyRoundHalfEven (p * 100 * 100), rfl⟩,
           pyRound2_close (p * 100), rfl⟩

/-- Witness for C3 at probability 0.4567: the bar shows 45.67 and the
caption reads "45.67% Risk". -/
theorem percentage_two_decimal_display_witness :
    (1 : ℕ) ≠ 0 ∧ (0 : ℚ) ≤ 4567/10000 ∧ (4567/10000 : ℚ) ≤ 1 ∧
    ((predict_cancellation (some fun _ => Except.ok [[0, 4567/10000]]) 1
        defaultInputs).barValue = pyRound2 ((4567/10000) * 100) ∧
     (∃ k : ℤ,
       (predict_cancellation (some fun _ => Except.ok [[0, 4567/10000]]) 1
         defaultInputs).barValue = (k : ℚ) / 100) ∧
     |(predict_cancellation (some fun _ => Except.ok [[0, 4567/10000]]) 1
         defaultInputs).barValue - (4567/10000) * 100| ≤ 1/200 ∧
     (predict_cancellation (some fun _ => Except.ok [[0, 4567/10000]]) 1
         defaultInputs).caption
       = pyFloatRepr2
           ((predict_cancellation (some fun _ => Except.ok [[0, 4567/10000]])
             1 defaultInputs).barValue) ++ "% Risk") ∧
    (predict_cancellation (some fun _ => Except.ok [[0, 4567/10000]]) 1
        defaultInputs).barValue = 4567/100 ∧
    (predict_cancellation (some fun _ => Except.ok [[0, 4567/10000]]) 1
        defaultInputs).caption = "45.67% Risk" :=
  ⟨by decide, by decide, by decide,
   percentage_two_decimal_display (4567/10000) 0 defaultInputs 1 (by decide)
     (by decide) (by decide),
   by decide, by decide⟩

/-- C4: Every fault raised during the scoring call is caught at the
trigger boundary and surfaced as outcome "Error" with danger color, bar
value 0, and "Prediction failed: " followed by the fault text; the
callback stays a total function, so no exception escapes. -/
theorem scoring_fault_surfaced (s : Pipeline) (n : ℕ) (i : Inputs)
    (e : String) (hn : n ≠ 0)
    (he : tryScore s (input_data i) = Except.error e) :
    predict_cancellation (some s) n i =
      ⟨"Error", "text-danger", 0, "danger", "Prediction failed: " ++ e⟩ := by
  rw [predict_cancellation_some s n i hn, score_and_render_fault s i e he]

/-- Witness for C4 with a scoring function that raises "boom". -/
theorem scoring_fault_surfaced_witness :
    (1 : ℕ) ≠ 0 ∧
    tryScore (fun _ => Except.error "boom") (input_data defaultInputs)
      = Except.error "boom" ∧
    predict_cancellation (some fun _ => Except.error "boom") 1 defaultInputs
      = ⟨"Error", "text-danger", 0, "danger", "Prediction failed: boom"⟩ :=
  ⟨by decide, rfl,
   scoring_fault_surfaced (fun _ => Except.error "boom") 1 defaultInputs
     "boom" (by decide) rfl⟩

/-- C7: The probability the mapper consumes is entry [0][1] of the
per-class output — the second class ("cancel") probability of the first
row: the scoring block extracts exactly that entry, and the rendered
outputs are unchanged by the first class probability and by any further
entries of the response. -/
theorem second_class_probability_consumed (q0 p : ℚ) (r : List ℚ)
    (rows : List (List ℚ)) (i : Inputs) (n : ℕ) (hn : n ≠ 0) :
    tryScore (fun _ => Except.ok ((q0 :: p :: r) :: rows)) (input_data i)
      = Except.ok p ∧
    predict_cancellation (some fun _ => Except.ok ((q0 :: p :: r) :: rows))
        n i
      = predict_cancellation (some fun _ => Except.ok [[0, p]]) n i := by
  refine ⟨rfl, ?_⟩
  rw [predict_cancellation_some (fun _ => Except.ok ((q0 :: p :: r) :: rows))
      n i hn,
    predict_cancellation_some (fun _ => Except.ok [[0, p]]) n i hn,
    score_and_render_ok (fun _ => Except.ok ((q0 :: p :: r) :: rows)) i p rfl,
    score_and_render_ok (fun _ => Except.ok [[0, p]]) i p rfl]

/-- Witness for C7: first class 9/10 and an extra row are ignored; only
the second class probability 1/10 matters. -/
theorem second_class_probability_consumed_witness :
    (1 : ℕ) ≠ 0 ∧
    tryScore (fun _ => Except.ok [[9/10, 1/10, 0], [1, 1]])
        (input_data defaultInputs) = Except.ok (1/10 : ℚ) ∧
    predict_cancellation (some fun _ => Except.ok [[9/10, 1/10, 0], [1, 1]])
        1 defaultInputs
      = predict_cancellation (some fun _ => Except.ok [[0, 1/10]]) 1
          defaultInputs :=
  ⟨by decide,
   (second_class_probability_consumed (9/10) (1/10) [0] [[1, 1]]
      defaultInputs 1 (by decide)).1,
   (second_class_probability_consumed (9/10) (1/10) [0] [[1, 1]]
      defaultInputs 1 (by decide)).2⟩

/-- C8: The prediction pipeline is deterministic and stateless: with the
same click state, the same sixteen field values, and scoring functions
that agree on the submitted record (the same model response), the five
returned outputs are identical. -/
theorem callback_deterministic (s1 s2 : Pipeline) (n : ℕ) (i : Inputs)
    (h : s1 (input_data i) = s2 (input_data i)) :
    predict_cancellation (some s1) n i
      = predict_cancellation (some s2) n i := by
  by_cases hn : n = 0
  · subst hn; rfl
  · rw [predict_cancellation_some s1 n i hn,
      predict_cancellation_some s2 n i hn]
    unfold score_and_render tryScore
    rw [h]

/-- Witness for C8: two syntactically different scoring functions that
agree on the default record produce identical outputs. -/
theorem callback_deterministic_witness :
    (fun _ : Record => Except.ok (ε := String) [[0, (7:ℚ)/10]])
        (input_data defaultInputs)
      = (fun rec : Record =>
          if rec.length = 16 then Except.ok [[0, (7:ℚ)/10]]
          else Except.error "bad") (input_data defaultInputs) ∧
    predict_cancellation (some fun _ => Except.ok [[0, (7:ℚ)/10]]) 1
        defaultInputs
      = predict_cancellation
          (some fun rec =>
            if rec.length = 16 then Except.ok [[0, (7:ℚ)/10]]
            else Except.error "bad") 1 defaultInputs :=
  ⟨rfl,
   callback_deterministic (fun _ => Except.ok [[0, (7:ℚ)/10]])
     (fun rec =>
       if rec.length = 16 then Except.ok [[0, (7:ℚ)/10]]
       else Except.error "bad") 1 defaultInputs rfl⟩

/-- Witness for C6 at the UI default field values, instantiating the
per-field lookup at the "hour" schema field. -/
theorem record_covers_schema_witness :
    (input_data defaultInputs).map Prod.fst = schema_fields ∧
    "hour" ∈ schema_fields ∧
    ((input_data defaultInputs).lookup "hour").isSome = true :=
  ⟨(record_covers_schema defaultInputs).1, by decide,
   (record_covers_schema defaultInputs).2 "hour" (by decide)⟩
